import Mathlib

/-!
Verification of the answer-resolution core of the OCS AI answerer
(`ocs_ai_answerer_advanced.py`): answer normalization (`AnswerProcessor`),
question-type mapping and prompt building (`QUESTION_TYPES`, `PromptBuilder`),
the retry/degrade loop of `ModelClient.chat`, the custom-model failover loop
of `answer_question`, and the routing helpers
(`CustomModelManager.get_best_model_for_question`, `ModelClient._select_model`).

Strings are modelled with Lean `String`; Python `str.lower` is modelled as
ASCII lowercasing (`pyToLower`), which agrees with CPython on ASCII and on
the CJK text this program manipulates.  Python list indexing is modelled with
`List.get?`, so code that would raise `IndexError` yields `none`.
-/

namespace OCS

/-- Whitespace class used by Python `str.strip()` and the regex class `\s`
(ASCII part: space, tab, linefeed, carriage return, vertical tab, form feed). -/
def pyIsSpace (c : Char) : Bool :=
  c.toNat = 32 || c.toNat = 9 || c.toNat = 10 || c.toNat = 13 ||
  c.toNat = 11 || c.toNat = 12

/-- `str.strip()` on a char list: drop leading and trailing whitespace. -/
def stripChars (l : List Char) : List Char :=
  ((l.dropWhile pyIsSpace).reverse.dropWhile pyIsSpace).reverse

/-- Python `str.strip()`. -/
def pyStrip (s : String) : String :=
  String.mk (stripChars s.data)

/-- ASCII lowercasing of one character, the fragment of Python `str.lower()`
exercised by this program (its text is CJK plus ASCII). -/
def pyToLower (c : Char) : Char :=
  if c = 'A' then 'a' else if c = 'B' then 'b' else if c = 'C' then 'c'
  else if c = 'D' then 'd' else if c = 'E' then 'e' else if c = 'F' then 'f'
  else if c = 'G' then 'g' else if c = 'H' then 'h' else if c = 'I' then 'i'
  else if c = 'J' then 'j' else if c = 'K' then 'k' else if c = 'L' then 'l'
  else if c = 'M' then 'm' else if c = 'N' then 'n' else if c = 'O' then 'o'
  else if c = 'P' then 'p' else if c = 'Q' then 'q' else if c = 'R' then 'r'
  else if c = 'S' then 's' else if c = 'T' then 't' else if c = 'U' then 'u'
  else if c = 'V' then 'v' else if c = 'W' then 'w' else if c = 'X' then 'x'
  else if c = 'Y' then 'y' else if c = 'Z' then 'z' else c

/-- Python `str.lower()` (ASCII model). -/
def pyLower (s : String) : String :=
  String.mk (s.data.map pyToLower)

/-- Does `n` occur at the head of `l`? -/
def listStartsWith : List Char → List Char → Bool
  | [], _ => true
  | _ :: _, [] => false
  | a :: as, b :: bs => a == b && listStartsWith as bs

/-- Does `n` occur contiguously inside `l`?  Python `n in l` on strings. -/
def occursIn (n : List Char) : List Char → Bool
  | [] => n.isEmpty
  | c :: t => listStartsWith n (c :: t) || occursIn n t

/-- Python substring test `a in b`. -/
def strIn (a b : String) : Bool :=
  occursIn a.data b.data

/-- The punctuation class of `_match_option`'s third check:
`[。，、；：！？\s]` without the whitespace part. -/
def isCnPunct (c : Char) : Bool :=
  c = '。' || c = '，' || c = '、' || c = '；' || c = '：' || c = '！' || c = '？'

/-- `re.sub(r'[。，、；：！？\s]', '', …)`: drop punctuation and whitespace. -/
def removePunctWs (s : String) : String :=
  String.mk (s.data.filter (fun c => !(isCnPunct c || pyIsSpace c)))

/-- Drop every whitespace character (used to state C1's hypothesis). -/
def removeWs (s : String) : String :=
  String.mk (s.data.filter (fun c => !pyIsSpace c))

/-- Spec-side reading of "case- and space-insensitively equal": equal after
removing all whitespace and lowercasing. -/
def spaceCaseEq (a b : String) : Bool :=
  pyLower (removeWs a) == pyLower (removeWs b)

/-- Label characters allowed after `答案`/`正确答案` in
`re.sub(r'^(答案[是为：:]*|正确答案[是为：:]*|选择[：:]*)', '', text)`. -/
def isAnswerLabelChar (c : Char) : Bool :=
  c = '是' || c = '为' || c = '：' || c = ':'

/-- Colon characters allowed after `选择` in the same regex. -/
def isColonChar (c : Char) : Bool :=
  c = '：' || c = ':'

/-- First substitution of `_clean_answer`: strip a leading answer label.
The regex alternatives are tried left to right at position 0 only. -/
def dropAnswerLabel (s : String) : String :=
  if listStartsWith "答案".data s.data then
    String.mk ((s.data.drop 2).dropWhile isAnswerLabelChar)
  else if listStartsWith "正确答案".data s.data then
    String.mk ((s.data.drop 4).dropWhile isAnswerLabelChar)
  else if listStartsWith "选择".data s.data then
    String.mk ((s.data.drop 2).dropWhile isColonChar)
  else s

/-- Second substitution of `_clean_answer`: `re.sub(r'[*`_]', '', text)`,
removing markdown emphasis characters everywhere. -/
def removeMarkdown (s : String) : String :=
  String.mk (s.data.filter (fun c => !(c = '*' || c.toNat = 96 || c.toNat = 95)))

/-- Third substitution of `_clean_answer`: `re.sub(r'^[A-Z][.、)]\s*', '', text)`,
dropping a leading letter label such as `A. `. -/
def dropChoiceLabel (s : String) : String :=
  match s.data with
  | c1 :: c2 :: rest =>
    if (65 ≤ c1.toNat && c1.toNat ≤ 90) && (c2 = '.' || c2 = '、' || c2 = ')') then
      String.mk (rest.dropWhile pyIsSpace)
    else s
  | _ => s

/-- `AnswerProcessor._clean_answer`. -/
def cleanAnswer (text : String) : String :=
  if text = "" then ""
  else
    let t1 := pyStrip (dropAnswerLabel text)
    let t2 := pyStrip (removeMarkdown t1)
    pyStrip (dropChoiceLabel t2)

/-- `AnswerProcessor._match_option`: exact case-insensitive match after
stripping, containment in either direction, or punctuation-stripped equality. -/
def matchOption (answer option : String) : Bool :=
  let a := pyStrip answer
  let o := pyStrip option
  if a = "" || o = "" then false
  else if pyLower a == pyLower o then true
  else if strIn (pyLower a) (pyLower o) || strIn (pyLower o) (pyLower a) then true
  else pyLower (removePunctWs a) == pyLower (removePunctWs o)

/-- `AnswerProcessor._process_single_choice`. -/
def processSingleChoice (rawAnswer : String) (options : List String) : String :=
  if options = [] then cleanAnswer rawAnswer
  else
    match options.find? (fun o => matchOption rawAnswer o) with
    | some o => pyStrip o
    | none =>
      let cleaned := cleanAnswer rawAnswer
      match (if cleaned ≠ rawAnswer
             then options.find? (fun o => matchOption cleaned o)
             else none) with
      | some o => pyStrip o
      | none => if cleaned ≠ "" then cleaned else rawAnswer

/-- The delimiter class of `re.split(r'[#;；、\n]', raw_answer)`. -/
def isDelim (c : Char) : Bool :=
  c = '#' || c = ';' || c = '；' || c = '、' || c = '\n'

/-- Split a char list on delimiter characters, keeping empty pieces (as
`re.split` does); `acc` holds the reversed current piece. -/
def splitCharsAux (p : Char → Bool) : List Char → List Char → List String
  | [], acc => [String.mk acc.reverse]
  | c :: t, acc =>
    if p c then String.mk acc.reverse :: splitCharsAux p t []
    else splitCharsAux p t (c :: acc)

/-- `re.split(r'[#;；、\n]', raw_answer)`. -/
def splitDelims (s : String) : List String :=
  splitCharsAux isDelim s.data []

/-- One step of the multiple-choice collection loops: find the first option
matching a fragment and append its stripped form if not already collected. -/
def addMatch (options : List String) (acc : List String) (frag : String) : List String :=
  match options.find? (fun o => matchOption frag o) with
  | some o =>
    let oc := pyStrip o
    if acc.contains oc then acc else acc ++ [oc]
  | none => acc

/-- First collection pass of `_process_multiple_choice`: each raw fragment is
stripped and skipped when empty. -/
def collectRaw (options : List String) (frags : List String) : List String :=
  frags.foldl
    (fun acc f =>
      let fs := pyStrip f
      if fs = "" then acc else addMatch options acc fs) []

/-- Second collection pass of `_process_multiple_choice`: fragments with
non-empty strip are cleaned and matched as-is. -/
def collectCleaned (options : List String) (frags : List String) : List String :=
  ((frags.filter (fun a => pyStrip a ≠ "")).map cleanAnswer).foldl (addMatch options) []

/-- `AnswerProcessor._process_multiple_choice`. -/
def processMultipleChoice (rawAnswer : String) (options : List String) : String :=
  if options = [] then cleanAnswer rawAnswer
  else
    let rawAnswers := splitDelims rawAnswer
    let matched1 := collectRaw options rawAnswers
    if matched1 ≠ [] then String.intercalate "#" matched1
    else
      let matched2 := collectCleaned options rawAnswers
      if matched2 ≠ [] then String.intercalate "#" matched2
      else
        let cleaned := cleanAnswer rawAnswer
        if cleaned ≠ "" then cleaned else rawAnswer

/-- `positive_words` of `_process_judgement`. -/
def positiveWords : List String :=
  ["正确", "对", "true", "√", "是", "yes", "成立"]

/-- `negative_words` of `_process_judgement`. -/
def negativeWords : List String :=
  ["错误", "错", "false", "×", "否", "no", "不成立"]

/-- `AnswerProcessor._process_judgement`.  The two positional defaults index
`options[0]` / `options[1]` behind explicit length guards; indexing is
modelled with `List.get?`, so a failed bounds check would surface as `none`. -/
def processJudgement (rawAnswer : String) (options : List String) : Option String :=
  if options = [] then some (cleanAnswer rawAnswer)
  else
    match options.find? (fun o => matchOption rawAnswer o) with
    | some o => some (pyStrip o)
    | none =>
      let cleaned := cleanAnswer rawAnswer
      match (if cleaned ≠ rawAnswer
             then options.find? (fun o => matchOption cleaned o)
             else none) with
      | some o => some (pyStrip o)
      | none =>
        let cl := pyLower cleaned
        let hasPositive := positiveWords.any (fun w => strIn w cl)
        let hasNegative := negativeWords.any (fun w => strIn w cl)
        if hasPositive && !hasNegative then
          match options.find? (fun o => positiveWords.any (fun w => strIn w (pyLower o))) with
          | some o => some (pyStrip o)
          | none =>
            if 0 < options.length then (options.get? 0).map pyStrip else some cleaned
        else if hasNegative && !hasPositive then
          match options.find? (fun o => negativeWords.any (fun w => strIn w (pyLower o))) with
          | some o => some (pyStrip o)
          | none =>
            if 1 < options.length then (options.get? 1).map pyStrip else some cleaned
        else some (if cleaned ≠ "" then cleaned else rawAnswer)

/-- `AnswerProcessor.process_answer`.  The result is `Option String`: `none`
would mean an uncaught Python exception, which claim C2 rules out. -/
def processAnswer (rawAnswer qType : String) (options : List String) : Option String :=
  if rawAnswer = "" then some ""
  else
    let raw := pyStrip rawAnswer
    if qType = "single" then some (processSingleChoice raw options)
    else if qType = "multiple" then some (processMultipleChoice raw options)
    else if qType = "judgement" then processJudgement raw options
    else if qType = "completion" then
      let cleaned := cleanAnswer raw
      some (if cleaned ≠ "" then cleaned else raw)
    else
      let cleaned := cleanAnswer raw
      some (if cleaned ≠ "" then cleaned else raw)

/-- The inbound type mapping `QUESTION_TYPES = {0: "single", 1: "multiple",
3: "completion", 4: "judgement"}`, read with `.get(type_num, "single")`. -/
def questionTypeOf (n : Int) : String :=
  if n = 0 then "single"
  else if n = 1 then "multiple"
  else if n = 3 then "completion"
  else if n = 4 then "judgement"
  else "single"

/-- Option block built by `_build_single_choice_prompt` and
`_build_multiple_choice_prompt`: `f"{chr(65+i)}. {opt}"` joined by newlines. -/
def letteredOptions (options : List String) : String :=
  String.intercalate "\n"
    (options.enum.map (fun p => String.singleton (Char.ofNat (65 + p.1)) ++ ". " ++ p.2))

/-- `PromptBuilder._build_single_choice_prompt`. -/
def buildSingleChoicePrompt (question : String) (options : List String) : String :=
  "你是一个专业的在线考试答题助手，请严格按照要求回答。\n\n【题目类型】单选题（只能选择一个正确答案）\n\n【题目】\n"
    ++ question ++ "\n\n【选项】\n" ++ letteredOptions options
    ++ "\n\n【回答要求】\n1. 仔细分析题目和所有选项\n2. 只选择一个最正确的答案\n3. 必须从给定的选项中选择，不能自己编造\n4. 回答格式：直接输出选项内容，不要包含A、B、C等标识符\n5. 只输出答案内容，不要有任何解释、分析或额外文字\n\n【示例】\n如果正确答案是选项\"北京\"，则只输出：北京\n\n现在请回答上述题目："

/-- `PromptBuilder._build_multiple_choice_prompt`. -/
def buildMultipleChoicePrompt (question : String) (options : List String) : String :=
  "你是一个专业的在线考试答题助手，请严格按照要求回答。\n\n【题目类型】多选题（可能有多个正确答案）\n\n【题目】\n"
    ++ question ++ "\n\n【选项】\n" ++ letteredOptions options
    ++ "\n\n【回答要求】\n1. 仔细分析题目，找出所有正确的选项\n2. 多选题通常有2个或以上的正确答案\n3. 必须从给定的选项中选择，不能自己编造\n4. 多个答案之间用井号#分隔\n5. 回答格式：选项1#选项2#选项3（不要包含A、B、C等标识符）\n6. 只输出答案内容，不要有任何解释、分析或额外文字\n\n【示例】\n如果正确答案是\"北京\"和\"上海\"两个选项，则输出：北京#上海\n\n现在请回答上述题目："

/-- `PromptBuilder._build_judgement_prompt`. -/
def buildJudgementPrompt (question : String) (options : List String) : String :=
  "你是一个专业的在线考试答题助手，请严格按照要求回答。\n\n【题目类型】判断题（判断对错/是否）\n\n【题目】\n"
    ++ question ++ "\n\n【可选答案】\n"
    ++ (if options.isEmpty then "正确 / 错误" else String.intercalate "\n" options)
    ++ "\n\n【回答要求】\n1. 仔细分析题目陈述是否正确\n2. 必须从给定的选项中选择（如：正确/错误、对/错、是/否、√/×等）\n3. 只输出一个判断结果\n4. 不要有任何解释、分析或额外文字\n\n【示例】\n如果题目陈述正确，且选项中有\"正确\"，则输出：正确\n\n现在请判断上述题目："

/-- `PromptBuilder._build_completion_prompt`. -/
def buildCompletionPrompt (question : String) : String :=
  "你是一个专业的在线考试答题助手，请严格按照要求回答。\n\n【题目类型】填空题\n\n【题目】\n"
    ++ question
    ++ "\n\n【回答要求】\n1. 仔细理解题目要求\n2. 给出准确、简洁的答案\n3. 如果有多个空，答案之间用井号#分隔\n4. 答案要具体、准确，避免模糊表述\n5. 只输出答案内容，不要有序号、解释或额外文字\n\n【示例】\n- 单空题：如果答案是\"北京\"，则输出：北京\n- 多空题：如果答案是\"氢\"和\"氧\"，则输出：氢#氧\n\n现在请回答上述填空题："

/-- `PromptBuilder._build_default_prompt` (the unrecognized-type branch). -/
def buildDefaultPrompt (question : String) (options : List String) : String :=
  "请回答以下问题：\n\n【题目】\n" ++ question ++ "\n\n【选项】\n"
    ++ (if options.isEmpty then "无固定选项"
        else String.intercalate "\n" (options.map (fun opt => "- " ++ opt)))
    ++ "\n\n【要求】\n1. 给出准确的答案\n2. 如果有多个答案，用#分隔\n3. 只输出答案，不要解释\n\n请回答："

/-- `PromptBuilder.build_prompt`. -/
def buildPrompt (question : String) (options : List String) (qType : String) : String :=
  if qType = "single" then buildSingleChoicePrompt question options
  else if qType = "multiple" then buildMultipleChoicePrompt question options
  else if qType = "judgement" then buildJudgementPrompt question options
  else if qType = "completion" then buildCompletionPrompt question
  else buildDefaultPrompt question options

/-- A Python exception as seen by the retry loop: `str(e)` and
`type(e).__name__`. -/
structure PyError where
  msg : String
  etype : String
deriving DecidableEq, Repr

/-- Token usage extracted from a successful response. -/
structure Usage where
  promptTokens : Nat
  completionTokens : Nat
  totalTokens : Nat
deriving DecidableEq, Repr

/-- What a successful `chat` returns: `(reasoning_content, answer, usage)`. -/
structure ChatSuccess where
  reasoning : Option String
  answer : String
  usage : Usage
deriving DecidableEq, Repr

/-- The outcome of one underlying API call: a response or a raised exception. -/
inductive Outcome where
  | ok (reasoning : Option String) (content : String) (usage : Usage)
  | err (e : PyError)
deriving DecidableEq, Repr

/-- `is_param_error` of `ModelClient.chat`: the message contains `400`,
`Invalid`, `invalid_request_error` (case-insensitive) or `max_tokens`
(case-insensitive). -/
def isParamError (e : PyError) : Bool :=
  strIn "400" e.msg || strIn "Invalid" e.msg ||
  strIn "invalid_request_error" (pyLower e.msg) ||
  strIn "max_tokens" (pyLower e.msg)

/-- The message/type part of `is_image_error` (the full condition also
requires `base64_images` to be non-empty). -/
def imageErrCond (e : PyError) : Bool :=
  strIn "connection" (pyLower e.msg) || strIn "Connection" e.etype ||
  strIn "timeout" (pyLower e.msg) || strIn "image" (pyLower e.msg) ||
  strIn "base64" (pyLower e.msg)

/-- `is_image_error`: image-related only when inline image data was sent. -/
def isImageError (e : PyError) (base64Images : List String) : Bool :=
  imageErrCond e && !base64Images.isEmpty

/-- Observable events of one `ModelClient.chat` invocation: an API attempt
(with or without inline images in the payload), the one-time switch to
text-only retry (`retry_without_images = True`), and a backoff sleep. -/
inductive ChatEv where
  | attemptEv (n : Nat) (withImages : Bool)
  | switchOffImagesEv
  | backoffEv (seconds : Nat)
deriving DecidableEq, Repr

/-- Number of image-disable switches in a trace. -/
def countSwitch : List ChatEv → Nat
  | [] => 0
  | ChatEv.switchOffImagesEv :: t => countSwitch t + 1
  | _ :: t => countSwitch t

/-- Number of API attempts in a trace. -/
def countAttempts : List ChatEv → Nat
  | [] => 0
  | ChatEv.attemptEv _ _ :: t => countAttempts t + 1
  | _ :: t => countAttempts t

/-- `MAX_RETRIES = int(os.getenv('MAX_RETRIES', '3'))`: the default attempt
budget of the retry loop. -/
def maxRetriesDefault : Nat := 3

/-- The retry loop of `ModelClient.chat` (`for attempt in range(1,
MAX_RETRIES + 1)`), with the environment abstracted as an oracle giving each
attempt's API outcome as a function of the attempt number and of whether the
payload carried inline images.  State: `rwi` is `retry_without_images`.
Branch order follows the source: success, fatal parameter error (immediate
failure), one-time image-disable switch (first attempt, doubao, inline images
present, not already switched), exhausted budget, exponential backoff
`min(2**attempt, 10)`.  The fuel argument counts remaining loop iterations;
falling off the loop returns `(None, None, None)` as in the source. -/
def chatAux (oracle : Nat → Bool → Outcome) (provider : String)
    (base64Images : List String) (useImages : Bool) (maxRetries : Nat) :
    Nat → Nat → Bool → Option ChatSuccess × List ChatEv
  | 0, _, _ => (none, [])
  | fuel + 1, attempt, rwi =>
    let imgs := useImages && !rwi
    match oracle attempt imgs with
    | Outcome.ok r content u => (some ⟨r, pyStrip content, u⟩, [ChatEv.attemptEv attempt imgs])
    | Outcome.err e =>
      if isParamError e then (none, [ChatEv.attemptEv attempt imgs])
      else if isImageError e base64Images && attempt = 1 && provider = "doubao" &&
              !base64Images.isEmpty && !rwi then
        let rest := chatAux oracle provider base64Images useImages maxRetries fuel (attempt + 1) true
        (rest.1, ChatEv.attemptEv attempt imgs :: ChatEv.switchOffImagesEv :: rest.2)
      else if maxRetries ≤ attempt then (none, [ChatEv.attemptEv attempt imgs])
      else
        let rest := chatAux oracle provider base64Images useImages maxRetries fuel (attempt + 1) rwi
        (rest.1, ChatEv.attemptEv attempt imgs :: ChatEv.backoffEv (min (2 ^ attempt) 10) :: rest.2)

/-- `ModelClient.chat` after model selection: image materialization followed
by the retry loop.  `downloads` holds the result of
`download_image_as_base64` for each URL (`none` = download failed); failed
downloads are dropped, and if none survive the call proceeds text-only
(`use_images = False`).  Downloads happen only for a doubao invocation that
actually has image URLs, as in the source. -/
def modelChat (provider : String) (imageUrls : List String)
    (downloads : List (Option String)) (oracle : Nat → Bool → Outcome) :
    Option ChatSuccess × List ChatEv :=
  let wantImages := provider = "doubao" && !imageUrls.isEmpty
  let base64Images := if wantImages then downloads.filterMap id else []
  let useImages := wantImages && !base64Images.isEmpty
  chatAux oracle provider base64Images useImages maxRetriesDefault maxRetriesDefault 1 false

/-- `_call_custom_model`: one API call inside a blanket
`try/except Exception` that turns every raised error — fatal parameter
errors included — into `(None, None, None)`. -/
def callCustomModel (apiOutcome : Outcome) : Option String :=
  match apiOutcome with
  | Outcome.ok _ content _ => some (pyStrip content)
  | Outcome.err _ => none

/-- The per-model configuration fields the failover loop consults. -/
structure CustomModel where
  enabled : Bool
  isMultimodal : Bool
deriving DecidableEq, Repr

/-- The custom-model failover loop of `answer_question`: walk the
question-type's model list in order; skip disabled models and, when the
question has images, non-multimodal models; call each remaining candidate and
stop at the first non-empty answer, otherwise move to the next candidate.
Returns the winning `(model_id, answer)` if any, plus the ids actually
called. -/
def tryCandidates (hasImages : Bool) (api : String → Outcome) :
    List (String × CustomModel) → Option (String × String) × List String
  | [] => (none, [])
  | (id, m) :: rest =>
    if !m.enabled then tryCandidates hasImages api rest
    else if hasImages && !m.isMultimodal then tryCandidates hasImages api rest
    else
      match callCustomModel (api id) with
      | some ans =>
        if ans ≠ "" then (some (id, ans), [id])
        else
          let r := tryCandidates hasImages api rest
          (r.1, id :: r.2)
      | none =>
        let r := tryCandidates hasImages api rest
        (r.1, id :: r.2)

/-- The slice of `CustomModelManager` state the routing helpers read: the
model registry (an ordered id → config map) and the per-question-type
priority lists (`get_question_type_models`). -/
structure ManagerConfig where
  models : List (String × CustomModel)
  typeModels : String → List String

/-- `CustomModelManager.get_model`. -/
def getModel (cfg : ManagerConfig) (id : String) : Option CustomModel :=
  (cfg.models.find? (fun p => p.1 = id)).map (fun p => p.2)

/-- `CustomModelManager.get_best_model_for_question`: with images, first
enabled multimodal model from the synthetic `image` list; then the question
type's list, requiring multimodal when images are present; else `None`. -/
def getBestModelForQuestion (cfg : ManagerConfig) (questionType : String)
    (hasImages : Bool) : Option String :=
  let fromImageList :=
    if hasImages then
      (cfg.typeModels "image").find? (fun id =>
        match getModel cfg id with
        | some m => m.enabled && m.isMultimodal
        | none => false)
    else none
  match fromImageList with
  | some id => some id
  | none =>
    (cfg.typeModels questionType).find? (fun id =>
      match getModel cfg id with
      | some m => m.enabled && (!hasImages || m.isMultimodal)
      | none => false)

/-- `ModelClient._select_model`, projected onto the provider id it returns;
`none` models the `('none', None, None)` no-client outcome.  With images,
prefer `image_model`, else degrade to the first configured client regardless
of multimodality; without images prefer `prefer_model`, else the first
configured client. -/
def selectModel (imageModel preferModel : String) (clients : List String)
    (imageUrls : List String) : Option String :=
  let hasImages := !imageUrls.isEmpty
  if hasImages then
    if clients.contains imageModel then some imageModel
    else clients.head?
  else
    if clients.contains preferModel then some preferModel
    else clients.head?

/-- Modelled from the spec: the judgement polarity fallback of §4.4 as
amended by claim C9 — positive-only polarity returns the first option
carrying a positive marker word, else the stripped `options[0]`;
negative-only polarity returns the first option carrying a negative marker
word, else the stripped `options[1]` when it exists, otherwise the cleaned
text; both or neither polarity returns the cleaned text, or the stripped raw
answer when cleaning yields the empty string. -/
def judgementFallbackSpec (rawAnswer : String) (options : List String) : String :=
  let cleaned := cleanAnswer rawAnswer
  let cl := pyLower cleaned
  let hasPositive := positiveWords.any (fun w => strIn w cl)
  let hasNegative := negativeWords.any (fun w => strIn w cl)
  if hasPositive && !hasNegative then
    match options.find? (fun o => positiveWords.any (fun w => strIn w (pyLower o))) with
    | some o => pyStrip o
    | none => pyStrip (options.headD "")
  else if hasNegative && !hasPositive then
    match options.find? (fun o => negativeWords.any (fun w => strIn w (pyLower o))) with
    | some o => pyStrip o
    | none =>
      match options.get? 1 with
      | some o => pyStrip o
      | none => cleaned
  else if cleaned ≠ "" then cleaned else rawAnswer

/-- Is `xs` a subsequence of `ys` (order-preserving)?  Used to state that a
multiple-choice output follows the source option order. -/
def seqInOrder : List String → List String → Bool
  | [], _ => true
  | _ :: _, [] => false
  | a :: as, b :: bs => if a = b then seqInOrder as bs else seqInOrder (a :: as) bs

theorem processJudgement_isSome (raw : String) (options : List String) :
    (processJudgement raw options).isSome := by
  unfold processJudgement
  by_cases h0 : options = []
  · rw [if_pos h0]; rfl
  rw [if_neg h0]
  dsimp only
  cases h1 : options.find? (fun o => matchOption raw o) with
  | some o => rfl
  | none =>
    dsimp only
    cases h2 : (if cleanAnswer raw ≠ raw
                then options.find? (fun o => matchOption (cleanAnswer raw) o)
                else none) with
    | some o => rfl
    | none =>
      dsimp only
      split
      · cases h3 : options.find?
            (fun o => positiveWords.any (fun w => strIn w (pyLower o))) with
        | some o => rfl
        | none =>
          dsimp only
          by_cases hlen : 0 < options.length
          · rw [if_pos hlen]
            cases hg : options.get? 0 with
            | some o => rfl
            | none => exact absurd (List.get?_eq_none.mp hg) (by omega)
          · rw [if_neg hlen]; rfl
      · split
        · cases h4 : options.find?
              (fun o => negativeWords.any (fun w => strIn w (pyLower o))) with
          | some o => rfl
          | none =>
            dsimp only
            by_cases hlen : 1 < options.length
            · rw [if_pos hlen]
              cases hg : options.get? 1 with
              | some o => rfl
              | none => exact absurd (List.get?_eq_none.mp hg) (by omega)
            · rw [if_neg hlen]; rfl
        · rfl

/-- C2: for every non-empty raw answer, every question type string
(recognized or not) and every options list, `process_answer` completes
without an uncaught exception (`none` in this model) and yields a string. -/
theorem claim2_process_answer_total (rawAnswer qType : String)
    (options : List String) (hraw : rawAnswer ≠ "") :
    ∃ s, processAnswer rawAnswer qType options = some s := by
  unfold processAnswer
  rw [if_neg hraw]
  dsimp only
  by_cases h1 : qType = "single"
  · rw [if_pos h1]; exact ⟨_, rfl⟩
  rw [if_neg h1]
  by_cases h2 : qType = "multiple"
  · rw [if_pos h2]; exact ⟨_, rfl⟩
  rw [if_neg h2]
  by_cases h3 : qType = "judgement"
  · rw [if_pos h3]; exact Option.isSome_iff_exists.mp (processJudgement_isSome _ _)
  rw [if_neg h3]
  by_cases h4 : qType = "completion"
  · rw [if_pos h4]; exact ⟨_, rfl⟩
  · rw [if_neg h4]; exact ⟨_, rfl⟩

theorem claim2_witness :
    ("答案：A" : String) ≠ "" ∧ ∃ s, processAnswer "答案：A" "judgement" ["对", "错"] = some s :=
  ⟨by decide, claim2_process_answer_total "答案：A" "judgement" ["对", "错"] (by decide)⟩

/-- C10: `QUESTION_TYPES.get(type_num, "single")` maps every type number
outside `{0, 1, 3, 4}` to `single`, so such requests are prompted and
normalized exactly as single-choice questions; every inbound type lands in
one of the four recognized tags, leaving the unrecognized-type branches of
`build_prompt` and `process_answer` unreachable from the answer endpoint. -/
theorem claim10_type_mapping (n : Int) (question rawAnswer : String)
    (options : List String) :
    (questionTypeOf n = "single" ∨ questionTypeOf n = "multiple" ∨
     questionTypeOf n = "completion" ∨ questionTypeOf n = "judgement") ∧
    (¬(n = 0 ∨ n = 1 ∨ n = 3 ∨ n = 4) →
      questionTypeOf n = "single" ∧
      buildPrompt question options (questionTypeOf n) = buildSingleChoicePrompt question options ∧
      processAnswer rawAnswer (questionTypeOf n) options = processAnswer rawAnswer "single" options) := by
  unfold questionTypeOf
  split_ifs with h0 h1 h3 h4
  · exact ⟨Or.inl rfl, fun hn => absurd (Or.inl h0) hn⟩
  · exact ⟨Or.inr (Or.inl rfl), fun hn => absurd (Or.inr (Or.inl h1)) hn⟩
  · exact ⟨Or.inr (Or.inr (Or.inl rfl)), fun hn => absurd (Or.inr (Or.inr (Or.inl h3))) hn⟩
  · exact ⟨Or.inr (Or.inr (Or.inr rfl)), fun hn => absurd (Or.inr (Or.inr (Or.inr h4))) hn⟩
  · exact ⟨Or.inl rfl, fun _ => ⟨rfl, by simp [buildPrompt], rfl⟩⟩

theorem claim10_witness :
    ¬((2 : Int) = 0 ∨ (2 : Int) = 1 ∨ (2 : Int) = 3 ∨ (2 : Int) = 4) ∧
    questionTypeOf 2 = "single" ∧
    buildPrompt "q" ["a"] (questionTypeOf 2) = buildSingleChoicePrompt "q" ["a"] ∧
    processAnswer "a" (questionTypeOf 2) ["a"] = processAnswer "a" "single" ["a"] :=
  ⟨by decide, (claim10_type_mapping 2 "q" "a" ["a"]).2 (by decide)⟩

/-- C1 counterexample: for a single-choice question with options
`["b", "ab"]` and raw text `ab`, the raw text equals the option `ab` case-
and space-insensitively, yet `process_answer` returns `b` — the earlier
option captured by the matcher's containment rule — not that option. -/
theorem claim1_counterexample :
    spaceCaseEq "ab" "ab" = true ∧ ("ab" : String) ∈ (["b", "ab"] : List String) ∧
    processAnswer "ab" "single" ["b", "ab"] = some "b" ∧ ("b" : String) ≠ "ab" := by
  decide

/-- C7 counterexample: the single fragment `ab` of a multiple-type answer
exactly matches the distinct option `ab`, yet `process_answer` returns `b`,
because the matcher's containment rule lets the earlier option `b` win. -/
theorem claim7_counterexample :
    pyStrip "ab" = "ab" ∧ splitDelims "ab" = ["ab"] ∧
    ("ab" : String) ∈ (["b", "ab"] : List String) ∧
    processAnswer "ab" "multiple" ["b", "ab"] = some "b" ∧ ("b" : String) ≠ "ab" := by
  decide

/-- C8 counterexample: with source options `["上海", "北京"]` and raw answer
`北京#上海`, the `#`-joined output keeps the fragments' first-match order
`北京, 上海`, which is not the source option order. -/
theorem claim8_counterexample :
    processAnswer "北京#上海" "multiple" ["上海", "北京"] = some "北京#上海" ∧
    seqInOrder (splitDelims "北京#上海") ((["上海", "北京"] : List String).map pyStrip) = false := by
  decide

/-- C9 counterexample: raw answer `***` on a judgement question with options
`["甲", "乙"]` matches no option raw or cleaned and carries neither polarity;
the claim says the cleaned text (here the empty string) is returned, but the
code falls back to the stripped raw answer `***`. -/
theorem claim9_counterexample :
    (∀ opt ∈ (["甲", "乙"] : List String),
      matchOption (pyStrip "***") opt = false ∧
      matchOption (cleanAnswer (pyStrip "***")) opt = false) ∧
    cleanAnswer (pyStrip "***") = "" ∧
    processAnswer "***" "judgement" ["甲", "乙"] = some "***" ∧ ("***" : String) ≠ "" := by
  decide

/-- C3 counterexample: the first custom-model candidate raises an error whose
message matches the fatal parameter classification, yet the failover loop
swallows it (`_call_custom_model` catches every exception) and proceeds to
call the second candidate, which answers — the resolution is not aborted. -/
theorem claim3_counterexample :
    isParamError ⟨"Error code: 400 - invalid_request_error", "BadRequestError"⟩ = true ∧
    tryCandidates false
      (fun id =>
        if id = "m1" then
          Outcome.err ⟨"Error code: 400 - invalid_request_error", "BadRequestError"⟩
        else Outcome.ok none "B" ⟨0, 0, 0⟩)
      [("m1", ⟨true, false⟩), ("m2", ⟨true, false⟩)] = (some ("m2", "B"), ["m1", "m2"]) := by
  decide

theorem chatAux_ok (oracle : Nat → Bool → Outcome) (provider : String)
    (b64 : List String) (useImages : Bool) (mr fuel a : Nat) (rwi : Bool)
    (r : Option String) (content : String) (u : Usage)
    (h : oracle a (useImages && !rwi) = Outcome.ok r content u) :
    chatAux oracle provider b64 useImages mr (fuel + 1) a rwi =
      (some ⟨r, pyStrip content, u⟩, [ChatEv.attemptEv a (useImages && !rwi)]) := by
  unfold chatAux
  dsimp only
  rw [h]

theorem chatAux_param (oracle : Nat → Bool → Outcome) (provider : String)
    (b64 : List String) (useImages : Bool) (mr fuel a : Nat) (rwi : Bool)
    (e : PyError) (h : oracle a (useImages && !rwi) = Outcome.err e)
    (hp : isParamError e = true) :
    chatAux oracle provider b64 useImages mr (fuel + 1) a rwi =
      (none, [ChatEv.attemptEv a (useImages && !rwi)]) := by
  unfold chatAux
  dsimp only
  rw [h]
  simp [hp]

theorem chatAux_switch (oracle : Nat → Bool → Outcome) (b64 : List String)
    (mr fuel : Nat) (e : PyError)
    (h : oracle 1 true = Outcome.err e) (hp : isParamError e = false)
    (himg : imageErrCond e = true) (hb : b64 ≠ []) :
    chatAux oracle "doubao" b64 true mr (fuel + 1) 1 false =
      ((chatAux oracle "doubao" b64 true mr fuel 2 true).1,
       ChatEv.attemptEv 1 true :: ChatEv.switchOffImagesEv ::
         (chatAux oracle "doubao" b64 true mr fuel 2 true).2) := by
  have h' : oracle 1 (true && !false) = Outcome.err e := h
  simp only [chatAux]
  rw [h']
  simp [hp, isImageError, himg, List.isEmpty_eq_false.mpr hb]

theorem chatAux_exhaust (oracle : Nat → Bool → Outcome) (provider : String)
    (b64 : List String) (useImages : Bool) (mr fuel a : Nat) (rwi : Bool)
    (e : PyError) (h : oracle a (useImages && !rwi) = Outcome.err e)
    (hp : isParamError e = false)
    (hsw : (isImageError e b64 && decide (a = 1) && decide (provider = "doubao") &&
            !b64.isEmpty && !rwi) = false)
    (hge : mr ≤ a) :
    chatAux oracle provider b64 useImages mr (fuel + 1) a rwi =
      (none, [ChatEv.attemptEv a (useImages && !rwi)]) := by
  unfold chatAux
  dsimp only
  rw [h]
  simp [hp, hsw, hge]

theorem chatAux_backoff (oracle : Nat → Bool → Outcome) (provider : String)
    (b64 : List String) (useImages : Bool) (mr fuel a : Nat) (rwi : Bool)
    (e : PyError) (h : oracle a (useImages && !rwi) = Outcome.err e)
    (hp : isParamError e = false)
    (hsw : (isImageError e b64 && decide (a = 1) && decide (provider = "doubao") &&
            !b64.isEmpty && !rwi) = false)
    (hlt : a < mr) :
    chatAux oracle provider b64 useImages mr (fuel + 1) a rwi =
      ((chatAux oracle provider b64 useImages mr fuel (a + 1) rwi).1,
       ChatEv.attemptEv a (useImages && !rwi) :: ChatEv.backoffEv (min (2 ^ a) 10) ::
         (chatAux oracle provider b64 useImages mr fuel (a + 1) rwi).2) := by
  simp only [chatAux]
  rw [h]
  simp only [hp, hsw, Bool.false_eq_true, if_false, Nat.not_le.mpr hlt]

theorem modelChat_eq_chatAux (imageUrls : List String)
    (downloads : List (Option String)) (oracle : Nat → Bool → Outcome)
    (hu : imageUrls ≠ []) (hb : downloads.filterMap id ≠ []) :
    modelChat "doubao" imageUrls downloads oracle =
      chatAux oracle "doubao" (downloads.filterMap id) true
        maxRetriesDefault maxRetriesDefault 1 false := by
  unfold modelChat
  simp [List.isEmpty_eq_false.mpr hu, List.isEmpty_eq_false.mpr hb]

/-- C3 (amended): within `ModelClient.chat`'s retry loop, an error classified
as a fatal parameter error is never retried — the invocation stops after that
very attempt with no further API call, no image-disable switch and no backoff.
In the custom-model failover loop, however, a candidate whose call raises any
exception (fatal parameter errors included) is merely skipped: the loop
records the attempt and advances to the remaining candidates, so only the
current invocation is aborted, not the whole resolution. -/
theorem claim3_amended :
    (∀ (oracle : Nat → Bool → Outcome) (provider : String) (b64 : List String)
       (useImages : Bool) (mr fuel a : Nat) (rwi : Bool) (e : PyError),
       oracle a (useImages && !rwi) = Outcome.err e → isParamError e = true →
       chatAux oracle provider b64 useImages mr (fuel + 1) a rwi =
         (none, [ChatEv.attemptEv a (useImages && !rwi)])) ∧
    (∀ (hasImages : Bool) (api : String → Outcome) (id : String) (m : CustomModel)
       (rest : List (String × CustomModel)) (e : PyError),
       m.enabled = true → (hasImages && !m.isMultimodal) = false →
       api id = Outcome.err e →
       tryCandidates hasImages api ((id, m) :: rest) =
         ((tryCandidates hasImages api rest).1,
          id :: (tryCandidates hasImages api rest).2)) := by
  constructor
  · exact fun oracle provider b64 useImages mr fuel a rwi e he hp =>
      chatAux_param oracle provider b64 useImages mr fuel a rwi e he hp
  · intro hasImages api id m rest e hen hmi hapi
    show (if !m.enabled then tryCandidates hasImages api rest
          else if hasImages && !m.isMultimodal then tryCandidates hasImages api rest
          else
            match callCustomModel (api id) with
            | some ans =>
              if ans ≠ "" then (some (id, ans), [id])
              else ((tryCandidates hasImages api rest).1,
                    id :: (tryCandidates hasImages api rest).2)
            | none => ((tryCandidates hasImages api rest).1,
                       id :: (tryCandidates hasImages api rest).2)) = _
    rw [hen, hmi, hapi]
    rfl

theorem claim3_amended_witness :
    ((fun (_ : Nat) (_ : Bool) => Outcome.err ⟨"400", "E"⟩) 1 (true && !false) =
        Outcome.err ⟨"400", "E"⟩ ∧
      isParamError ⟨"400", "E"⟩ = true ∧
      chatAux (fun _ _ => Outcome.err ⟨"400", "E"⟩) "doubao" ["b"] true 3 3 1 false =
        (none, [ChatEv.attemptEv 1 true])) ∧
    tryCandidates false (fun _ => Outcome.err ⟨"400", "E"⟩) [("m1", ⟨true, false⟩)] =
      (none, ["m1"]) := by
  constructor
  · exact ⟨rfl, by decide,
      claim3_amended.1 (fun _ _ => Outcome.err ⟨"400", "E"⟩) "doubao" ["b"] true 3 2 1 false
        ⟨"400", "E"⟩ rfl (by decide)⟩
  · have h := claim3_amended.2 false (fun _ => Outcome.err ⟨"400", "E"⟩) "m1"
      ⟨true, false⟩ [] ⟨"400", "E"⟩ rfl rfl rfl
    rw [h]
    rfl

theorem chatAux_no_switch_of_ge2 (oracle : Nat → Bool → Outcome) (provider : String)
    (b64 : List String) (useImages : Bool) (mr : Nat) :
    ∀ (fuel a : Nat) (rwi : Bool), 2 ≤ a →
      countSwitch (chatAux oracle provider b64 useImages mr fuel a rwi).2 = 0 := by
  intro fuel
  induction fuel with
  | zero => intro a rwi _; rfl
  | succ f ih =>
    intro a rwi ha
    have hd1 : decide (a = 1) = false := decide_eq_false (by omega)
    unfold chatAux
    dsimp only
    cases h : oracle a (useImages && !rwi) with
    | ok r content u => simp [countSwitch]
    | err e =>
      by_cases hp : isParamError e = true
      · simp [hp, countSwitch]
      · simp only [hp, if_false, hd1, Bool.and_false, Bool.false_and,
          Bool.false_eq_true]
        by_cases hge : mr ≤ a
        · simp [hge, countSwitch]
        · simp [hge, countSwitch, ih (a + 1) rwi (by omega)]

theorem chatAux_no_switch_of_nil_b64 (oracle : Nat → Bool → Outcome) (provider : String)
    (useImages : Bool) (mr : Nat) :
    ∀ (fuel a : Nat) (rwi : Bool),
      countSwitch (chatAux oracle provider [] useImages mr fuel a rwi).2 = 0 := by
  intro fuel
  induction fuel with
  | zero => intro a rwi; rfl
  | succ f ih =>
    intro a rwi
    unfold chatAux
    dsimp only
    cases h : oracle a (useImages && !rwi) with
    | ok r content u => simp [countSwitch]
    | err e =>
      by_cases hp : isParamError e = true
      · simp [hp, countSwitch]
      · simp only [hp, if_false, isImageError, List.isEmpty_nil, Bool.not_true,
          Bool.and_false, Bool.false_and, Bool.false_eq_true]
        by_cases hge : mr ≤ a
        · simp [hge, countSwitch]
        · simp [hge, countSwitch, ih (a + 1) rwi]

/-- C4: with inline image data present, a transient image-classified failure
on attempt 1 triggers exactly one switch to the image-disabled payload: the
remaining attempts run text-only, the switch never fires again within the
candidate, and subsequent transient failures take the generic exponential
backoff path (`min(2**attempt, 10)` seconds) until the default 3-attempt
budget is exhausted.  In addition, for every possible sequence of outcomes
the switch fires at most once per candidate. -/
theorem claim4_one_time_image_degrade (imageUrls : List String)
    (downloads : List (Option String)) (oracle : Nat → Bool → Outcome)
    (e1 e2 e3 : PyError)
    (hurls : imageUrls ≠ []) (hb64 : downloads.filterMap id ≠ [])
    (h1 : oracle 1 true = Outcome.err e1)
    (h1img : imageErrCond e1 = true) (h1p : isParamError e1 = false)
    (h2 : oracle 2 false = Outcome.err e2) (h2p : isParamError e2 = false)
    (h3 : oracle 3 false = Outcome.err e3) (h3p : isParamError e3 = false) :
    modelChat "doubao" imageUrls downloads oracle =
      (none, [ChatEv.attemptEv 1 true, ChatEv.switchOffImagesEv,
              ChatEv.attemptEv 2 false, ChatEv.backoffEv 4, ChatEv.attemptEv 3 false]) ∧
    (∀ oracle2 : Nat → Bool → Outcome,
      countSwitch (modelChat "doubao" imageUrls downloads oracle2).2 ≤ 1) := by
  constructor
  · rw [modelChat_eq_chatAux imageUrls downloads oracle hurls hb64]
    show chatAux oracle "doubao" (downloads.filterMap id) true 3 (2 + 1) 1 false = _
    rw [chatAux_switch oracle (downloads.filterMap id) 3 2 e1 h1 h1p h1img hb64]
    rw [show chatAux oracle "doubao" (downloads.filterMap id) true 3 2 2 true =
        chatAux oracle "doubao" (downloads.filterMap id) true 3 (1 + 1) 2 true from rfl]
    rw [chatAux_backoff oracle "doubao" (downloads.filterMap id) true 3 1 2 true e2
      (by rw [show (true && !true) = false from rfl]; exact h2) h2p (by simp) (by omega)]
    rw [show chatAux oracle "doubao" (downloads.filterMap id) true 3 1 3 true =
        chatAux oracle "doubao" (downloads.filterMap id) true 3 (0 + 1) 3 true from rfl]
    rw [chatAux_exhaust oracle "doubao" (downloads.filterMap id) true 3 0 3 true e3
      (by rw [show (true && !true) = false from rfl]; exact h3) h3p (by simp) (by omega)]
    rfl
  · intro oracle2
    rw [modelChat_eq_chatAux imageUrls downloads oracle2 hurls hb64]
    show countSwitch
      (chatAux oracle2 "doubao" (downloads.filterMap id) true 3 (2 + 1) 1 false).2 ≤ 1
    cases h : oracle2 1 (true && !false) with
    | ok r content u =>
      rw [chatAux_ok oracle2 "doubao" (downloads.filterMap id) true 3 2 1 false r content u h]
      simp [countSwitch]
    | err e =>
      by_cases hp : isParamError e = true
      · rw [chatAux_param oracle2 "doubao" (downloads.filterMap id) true 3 2 1 false e h hp]
        simp [countSwitch]
      · by_cases himg : imageErrCond e = true
        · rw [chatAux_switch oracle2 (downloads.filterMap id) 3 2 e h
            (Bool.eq_false_iff.mpr hp) himg hb64]
          simp only [countSwitch]
          rw [chatAux_no_switch_of_ge2 oracle2 "doubao" (downloads.filterMap id) true 3 2 2
            true (by omega)]
        · rw [chatAux_backoff oracle2 "doubao" (downloads.filterMap id) true 3 2 1 false e h
            (Bool.eq_false_iff.mpr hp)
            (by simp [isImageError, Bool.eq_false_iff.mpr himg]) (by omega)]
          simp only [countSwitch]
          rw [chatAux_no_switch_of_ge2 oracle2 "doubao" (downloads.filterMap id) true 3 2
            (1 + 1) false (by omega)]
          omega

theorem claim4_witness :
    (["u.png"] : List String) ≠ [] ∧
    ([some "b64"] : List (Option String)).filterMap id ≠ [] ∧
    modelChat "doubao" ["u.png"] [some "b64"]
      (fun _ _ => Outcome.err ⟨"timeout of request", "ConnectError"⟩) =
      (none, [ChatEv.attemptEv 1 true, ChatEv.switchOffImagesEv,
              ChatEv.attemptEv 2 false, ChatEv.backoffEv 4, ChatEv.attemptEv 3 false]) :=
  ⟨by decide, by decide,
    (claim4_one_time_image_degrade ["u.png"] [some "b64"]
      (fun _ _ => Outcome.err ⟨"timeout of request", "ConnectError"⟩)
      ⟨"timeout of request", "ConnectError"⟩ ⟨"timeout of request", "ConnectError"⟩
      ⟨"timeout of request", "ConnectError"⟩
      (by decide) (by decide) rfl (by decide) (by decide) rfl (by decide) rfl
      (by decide)).1⟩

/-- C5: image URLs whose download fails are dropped from the payload rather
than failing the request; when every download fails the invocation is
identical to a text-only invocation — the first API call is still attempt 1,
sent without images (no retry consumed, nothing aborted), and since no inline
image data was sent, no failure is classified image-related, so the one-time
image-disable switch can never fire. -/
theorem claim5_materialize_failures_degrade (imageUrls : List String)
    (downloads : List (Option String)) (oracle : Nat → Bool → Outcome)
    (hall : ∀ d ∈ downloads, d = none) :
    modelChat "doubao" imageUrls downloads oracle = modelChat "doubao" [] [] oracle ∧
    (modelChat "doubao" imageUrls downloads oracle).2.head? =
      some (ChatEv.attemptEv 1 false) ∧
    countSwitch (modelChat "doubao" imageUrls downloads oracle).2 = 0 ∧
    (∀ (downloads2 : List (Option String)) (provider : String),
      modelChat provider imageUrls downloads2 oracle =
        modelChat provider imageUrls ((downloads2.filterMap id).map some) oracle) := by
  have hnil : downloads.filterMap id = [] := List.filterMap_eq_nil_iff.mpr hall
  have hmain : modelChat "doubao" imageUrls downloads oracle =
      chatAux oracle "doubao" [] false 3 3 1 false := by
    unfold modelChat
    rw [hnil]
    simp [ite_self, maxRetriesDefault]
  have htext : modelChat "doubao" [] [] oracle =
      chatAux oracle "doubao" [] false 3 3 1 false := by
    unfold modelChat
    simp [maxRetriesDefault]
  refine ⟨hmain.trans htext.symm, ?_, ?_, ?_⟩
  · rw [hmain]
    show (chatAux oracle "doubao" [] false 3 (2 + 1) 1 false).2.head? = _
    cases h : oracle 1 (false && !false) with
    | ok r content u =>
      rw [chatAux_ok oracle "doubao" [] false 3 2 1 false r content u h]
      rfl
    | err e =>
      by_cases hp : isParamError e = true
      · rw [chatAux_param oracle "doubao" [] false 3 2 1 false e h hp]
        rfl
      · rw [chatAux_backoff oracle "doubao" [] false 3 2 1 false e h
          (Bool.eq_false_iff.mpr hp) (by simp [isImageError]) (by omega)]
        rfl
  · rw [hmain]
    exact chatAux_no_switch_of_nil_b64 oracle "doubao" false 3 3 1 false
  · intro downloads2 provider
    have hb : List.filterMap id (List.map some (List.filterMap id downloads2)) =
        List.filterMap id downloads2 := by
      rw [List.filterMap_map]
      simp [Function.comp]
    unfold modelChat
    rw [hb]

theorem claim5_witness :
    (∀ d ∈ ([none, none] : List (Option String)), d = none) ∧
    modelChat "doubao" ["u.png", "v.png"] [none, none]
      (fun _ _ => Outcome.ok none "A" ⟨1, 1, 2⟩) =
      modelChat "doubao" [] [] (fun _ _ => Outcome.ok none "A" ⟨1, 1, 2⟩) ∧
    countSwitch (modelChat "doubao" ["u.png", "v.png"] [none, none]
      (fun _ _ => Outcome.ok none "A" ⟨1, 1, 2⟩)).2 = 0 :=
  ⟨by decide,
    (claim5_materialize_failures_degrade ["u.png", "v.png"] [none, none]
      (fun _ _ => Outcome.ok none "A" ⟨1, 1, 2⟩) (by decide)).1,
    (claim5_materialize_failures_degrade ["u.png", "v.png"] [none, none]
      (fun _ _ => Outcome.ok none "A" ⟨1, 1, 2⟩) (by decide)).2.2.1⟩

/-- C6 counterexample: one provider is enabled (`m1`, non-multimodal, listed
for type `single`; the synthetic `image` list is empty), yet
`get_best_model_for_question` returns `None` for an image-bearing question
instead of falling back to the first enabled provider overall. -/
theorem claim6_counterexample :
    getModel ⟨[("m1", ⟨true, false⟩)], fun t => if t = "single" then ["m1"] else []⟩ "m1" =
      some ⟨true, false⟩ ∧
    getBestModelForQuestion
      ⟨[("m1", ⟨true, false⟩)], fun t => if t = "single" then ["m1"] else []⟩
      "single" true = none := by
  constructor
  · rfl
  · rfl

/-- C6 (amended): for an image-bearing question,
`get_best_model_for_question` only ever selects a model that is enabled and
multimodal (first from the `image` priority list, then from the question
type's list) and may return `None` even when a non-multimodal provider is
enabled — the first-configured-provider degraded fallback exists only in
`ModelClient._select_model`, whose result is non-empty whenever at least one
client is configured. -/
theorem claim6_amended :
    (∀ (cfg : ManagerConfig) (questionType id : String),
      getBestModelForQuestion cfg questionType true = some id →
      ∃ m, getModel cfg id = some m ∧ m.enabled = true ∧ m.isMultimodal = true) ∧
    (∀ (imageModel preferModel : String) (clients imageUrls : List String),
      clients ≠ [] →
      (selectModel imageModel preferModel clients imageUrls).isSome) := by
  constructor
  · intro cfg questionType id h
    unfold getBestModelForQuestion at h
    dsimp only at h
    rw [if_pos rfl] at h
    cases hf : (cfg.typeModels "image").find? (fun i =>
        match getModel cfg i with
        | some m => m.enabled && m.isMultimodal
        | none => false) with
    | some j =>
      rw [hf] at h
      have hid : j = id := by injection h
      subst hid
      have hj := List.find?_some hf
      revert hj
      cases hm : getModel cfg j with
      | none => intro hj; cases hj
      | some m =>
        intro hj
        dsimp only at hj
        exact ⟨m, rfl, (Bool.and_eq_true _ _).mp hj⟩
    | none =>
      rw [hf] at h
      have hj := List.find?_some h
      revert hj
      cases hm : getModel cfg id with
      | none => intro hj; cases hj
      | some m =>
        intro hj
        dsimp only at hj
        have hsplit := (Bool.and_eq_true _ _).mp hj
        refine ⟨m, rfl, hsplit.1, ?_⟩
        simpa using hsplit.2
  · intro imageModel preferModel clients imageUrls hc
    obtain ⟨c, t, rfl⟩ := List.exists_cons_of_ne_nil hc
    unfold selectModel
    dsimp only
    split
    · split
      · rfl
      · rfl
    · split
      · rfl
      · rfl

theorem claim6_amended_witness :
    (getBestModelForQuestion
        ⟨[("m2", ⟨true, true⟩)], fun t => if t = "image" then ["m2"] else []⟩
        "single" true = some "m2" ∧
      ∃ m, getModel ⟨[("m2", ⟨true, true⟩)], fun t => if t = "image" then ["m2"] else []⟩
        "m2" = some m ∧ m.enabled = true ∧ m.isMultimodal = true) ∧
    (selectModel "doubao" "deepseek" ["deepseek"] ["u.png"]).isSome :=
  ⟨⟨by rfl,
      claim6_amended.1
        ⟨[("m2", ⟨true, true⟩)], fun t => if t = "image" then ["m2"] else []⟩
        "single" "m2" (by rfl)⟩,
    claim6_amended.2 "doubao" "deepseek" ["deepseek"] ["u.png"] (by decide)⟩

theorem nodup_collect_fold (options : List String) :
    ∀ (frags acc : List String), acc.Nodup →
      (frags.foldl
        (fun acc f =>
          let fs := pyStrip f
          if fs = "" then acc else addMatch options acc fs) acc).Nodup := by
  intro frags
  induction frags with
  | nil => intro acc h; simpa using h
  | cons f t ih =>
    intro acc h
    rw [List.foldl_cons]
    apply ih
    dsimp only
    split
    · exact h
    · unfold addMatch
      cases hf : options.find? (fun o => matchOption (pyStrip f) o) with
      | none => exact h
      | some o =>
        dsimp only
        split
        · exact h
        next hcont =>
          rw [List.nodup_append]
          refine ⟨h, List.nodup_singleton _, ?_⟩
          intro x hx hx1
          rw [List.mem_singleton] at hx1
          subst hx1
          exact hcont (List.elem_iff.mpr hx)

theorem collect_fold_spec (options : List String) :
    ∀ (frags os acc : List String),
      List.Forall₂ (fun f o => options.find? (fun x => matchOption f x) = some o)
        ((frags.map pyStrip).filter (fun f => f ≠ "")) os →
      (acc ++ os.map pyStrip).Nodup →
      frags.foldl
        (fun acc f =>
          let fs := pyStrip f
          if fs = "" then acc else addMatch options acc fs) acc
        = acc ++ os.map pyStrip := by
  intro frags
  induction frags with
  | nil =>
    intro os acc hf _
    rw [show (([] : List String).map pyStrip).filter (fun f => f ≠ "") = [] from rfl,
      List.forall₂_nil_left_iff] at hf
    subst hf
    simp
  | cons f t ih =>
    intro os acc hf hn
    rw [List.foldl_cons]
    dsimp only
    by_cases hfs : pyStrip f = ""
    · rw [if_pos hfs]
      apply ih os acc ?_ hn
      rw [List.map_cons, List.filter_cons_of_neg (by simp [hfs])] at hf
      exact hf
    · rw [if_neg hfs]
      rw [List.map_cons, List.filter_cons_of_pos (by simp [hfs]),
        List.forall₂_cons_left_iff] at hf
      obtain ⟨o, os', hR, hrest, rfl⟩ := hf
      rw [List.map_cons] at hn
      have hnotin : pyStrip o ∉ acc := by
        rw [List.nodup_append] at hn
        intro hx
        exact hn.2.2 hx (List.mem_cons_self _ _)
      have hstep : addMatch options acc (pyStrip f) = acc ++ [pyStrip o] := by
        unfold addMatch
        rw [hR]
        dsimp only
        rw [if_neg (fun hc => hnotin (List.elem_iff.mp hc))]
      rw [hstep]
      rw [ih os' (acc ++ [pyStrip o]) hrest
        (by rwa [List.append_assoc, List.singleton_append])]
      rw [List.append_assoc, List.singleton_append, List.map_cons]

/-- C7 (amended): for a multiple-type answer whose non-empty stripped
fragments are each accepted by the option matcher — the first accepted option
of each fragment being a distinct option (in particular when each fragment
exactly equals a distinct option and no earlier option matches it by
containment) — `process_answer` returns exactly those first-accepted options,
stripped, joined by `#` in fragment (first-match) order, with no option
appearing more than once. -/
theorem claim7_amended (rawAnswer : String) (options os : List String)
    (hraw : rawAnswer ≠ "")
    (hf : List.Forall₂ (fun f o => options.find? (fun x => matchOption f x) = some o)
      (((splitDelims (pyStrip rawAnswer)).map pyStrip).filter (fun f => f ≠ "")) os)
    (hos : os ≠ [])
    (hn : (os.map pyStrip).Nodup) :
    processAnswer rawAnswer "multiple" options =
      some (String.intercalate "#" (os.map pyStrip)) := by
  have hopts : options ≠ [] := by
    rintro rfl
    obtain ⟨o, os', rfl⟩ := List.exists_cons_of_ne_nil hos
    have hlen := List.Forall₂.length_eq hf
    obtain ⟨ff, fs, hffs⟩ : ∃ ff fs,
        (((splitDelims (pyStrip rawAnswer)).map pyStrip).filter (fun f => f ≠ "")) =
          ff :: fs := by
      cases hc : (((splitDelims (pyStrip rawAnswer)).map pyStrip).filter (fun f => f ≠ "")) with
      | nil => rw [hc] at hlen; cases hlen
      | cons ff fs => exact ⟨ff, fs, rfl⟩
    rw [hffs, List.forall₂_cons_left_iff] at hf
    obtain ⟨b, u, hR, _, _⟩ := hf
    cases hR
  have hcoll : collectRaw options (splitDelims (pyStrip rawAnswer)) = os.map pyStrip := by
    unfold collectRaw
    have := collect_fold_spec options (splitDelims (pyStrip rawAnswer)) os [] hf
      (by simpa using hn)
    simpa using this
  unfold processAnswer
  rw [if_neg hraw]
  dsimp only
  show some (processMultipleChoice (pyStrip rawAnswer) options) = _
  unfold processMultipleChoice
  rw [if_neg hopts]
  dsimp only
  rw [hcoll, if_pos (by simpa [List.map_eq_nil_iff] using hos)]

theorem claim7_witness :
    processAnswer "北京#上海" "multiple" ["北京", "上海", "广州"] =
      some (String.intercalate "#" ((["北京", "上海"] : List String).map pyStrip)) ∧
    String.intercalate "#" ((["北京", "上海"] : List String).map pyStrip) = "北京#上海" := by
  constructor
  · apply claim7_amended "北京#上海" ["北京", "上海", "广州"] ["北京", "上海"] (by decide)
    · show List.Forall₂ _ (["北京", "上海"] : List String) _
      exact List.Forall₂.cons (by decide) (List.Forall₂.cons (by decide) List.Forall₂.nil)
    · decide
    · decide
  · decide

/-- C8 (amended): when the first collection pass of a multiple-type answer
matches at least one option, `process_answer` returns the collected options
joined by `#` in first-match (fragment) order — not source option order —
with no option appearing more than once. -/
theorem claim8_amended (rawAnswer : String) (options : List String)
    (hraw : rawAnswer ≠ "") (hopts : options ≠ [])
    (hm : collectRaw options (splitDelims (pyStrip rawAnswer)) ≠ []) :
    processAnswer rawAnswer "multiple" options =
      some (String.intercalate "#" (collectRaw options (splitDelims (pyStrip rawAnswer)))) ∧
    (collectRaw options (splitDelims (pyStrip rawAnswer))).Nodup := by
  constructor
  · unfold processAnswer
    rw [if_neg hraw]
    dsimp only
    show some (processMultipleChoice (pyStrip rawAnswer) options) = _
    unfold processMultipleChoice
    rw [if_neg hopts]
    dsimp only
    rw [if_pos hm]
  · exact nodup_collect_fold options (splitDelims (pyStrip rawAnswer)) [] List.nodup_nil

theorem claim8_witness :
    collectRaw ["上海", "北京"] (splitDelims (pyStrip "北京#上海")) = ["北京", "上海"] ∧
    processAnswer "北京#上海" "multiple" ["上海", "北京"] =
      some (String.intercalate "#"
        (collectRaw ["上海", "北京"] (splitDelims (pyStrip "北京#上海")))) ∧
    (collectRaw ["上海", "北京"] (splitDelims (pyStrip "北京#上海"))).Nodup :=
  ⟨by decide,
    (claim8_amended "北京#上海" ["上海", "北京"] (by decide) (by decide) (by decide)).1,
    (claim8_amended "北京#上海" ["上海", "北京"] (by decide) (by decide) (by decide)).2⟩

/-- C9 (amended): for a judgement question with a non-empty options list
whose raw and cleaned answers match no option, `process_answer` returns the
polarity fallback of `judgementFallbackSpec`: positive-only polarity yields
the first option carrying a positive marker word, else the stripped
`options[0]`; negative-only polarity yields the first option carrying a
negative marker word, else the stripped `options[1]` when it exists,
otherwise the cleaned text; both or neither polarity yields the cleaned text,
or the stripped raw answer when cleaning yields the empty string. -/
theorem claim9_amended (rawAnswer : String) (options : List String)
    (hraw : rawAnswer ≠ "") (hopts : options ≠ [])
    (hnm : ∀ opt ∈ options, matchOption (pyStrip rawAnswer) opt = false ∧
           matchOption (cleanAnswer (pyStrip rawAnswer)) opt = false) :
    processAnswer rawAnswer "judgement" options =
      some (judgementFallbackSpec (pyStrip rawAnswer) options) := by
  unfold processAnswer
  rw [if_neg hraw]
  dsimp only
  show processJudgement (pyStrip rawAnswer) options = _
  unfold processJudgement
  rw [if_neg hopts]
  dsimp only
  have h1 : options.find? (fun o => matchOption (pyStrip rawAnswer) o) = none :=
    List.find?_eq_none.mpr (fun x hx => by simp [(hnm x hx).1])
  rw [h1]
  dsimp only
  have h2 : (if cleanAnswer (pyStrip rawAnswer) ≠ pyStrip rawAnswer
      then options.find? (fun o => matchOption (cleanAnswer (pyStrip rawAnswer)) o)
      else none) = none := by
    split
    · exact List.find?_eq_none.mpr (fun x hx => by simp [(hnm x hx).2])
    · rfl
  rw [h2]
  dsimp only
  unfold judgementFallbackSpec
  dsimp only
  split
  · cases hfp : options.find?
        (fun o => positiveWords.any (fun w => strIn w (pyLower o))) with
    | some o => rfl
    | none =>
      obtain ⟨a, t, rfl⟩ := List.exists_cons_of_ne_nil hopts
      simp [List.headD]
  · split
    · cases hfn : options.find?
          (fun o => negativeWords.any (fun w => strIn w (pyLower o))) with
      | some o => rfl
      | none =>
        dsimp only
        by_cases hlen : 1 < options.length
        · rw [if_pos hlen]
          cases hg : options.get? 1 with
          | some o => rfl
          | none => exact absurd (List.get?_eq_none.mp hg) (by omega)
        · rw [if_neg hlen]
          rw [List.get?_eq_none.mpr (by omega)]
    · rfl

theorem filter_dropWhile_of_imp {p q : Char → Bool} (h : ∀ c, q c = true → p c = false) :
    ∀ l : List Char, (l.dropWhile q).filter p = l.filter p := by
  intro l
  induction l with
  | nil => rfl
  | cons c t ih =>
    rw [List.dropWhile_cons]
    by_cases hq : q c = true
    · rw [if_pos hq, ih, List.filter_cons_of_neg (by simp [h c hq])]
    · rw [if_neg hq]

theorem filter_stripChars {p : Char → Bool} (h : ∀ c, pyIsSpace c = true → p c = false)
    (l : List Char) : (stripChars l).filter p = l.filter p := by
  unfold stripChars
  rw [List.filter_reverse, filter_dropWhile_of_imp h, List.filter_reverse,
    List.reverse_reverse, filter_dropWhile_of_imp h]

theorem removeWs_pyStrip (x : String) : removeWs (pyStrip x) = removeWs x := by
  unfold removeWs pyStrip
  exact congrArg String.mk (filter_stripChars (fun c hc => by simp [hc]) x.data)

theorem removePunctWs_pyStrip (x : String) :
    removePunctWs (pyStrip x) = removePunctWs x := by
  unfold removePunctWs pyStrip
  exact congrArg String.mk (filter_stripChars (fun c hc => by simp [hc]) x.data)

theorem pyIsSpace_pyToLower (c : Char) : pyIsSpace (pyToLower c) = pyIsSpace c := by
  unfold pyToLower
  by_cases hA : c = 'A'
  · subst hA; decide
  rw [if_neg hA]
  by_cases hB : c = 'B'
  · subst hB; decide
  rw [if_neg hB]
  by_cases hC : c = 'C'
  · subst hC; decide
  rw [if_neg hC]
  by_cases hD : c = 'D'
  · subst hD; decide
  rw [if_neg hD]
  by_cases hE : c = 'E'
  · subst hE; decide
  rw [if_neg hE]
  by_cases hF : c = 'F'
  · subst hF; decide
  rw [if_neg hF]
  by_cases hG : c = 'G'
  · subst hG; decide
  rw [if_neg hG]
  by_cases hH : c = 'H'
  · subst hH; decide
  rw [if_neg hH]
  by_cases hI : c = 'I'
  · subst hI; decide
  rw [if_neg hI]
  by_cases hJ : c = 'J'
  · subst hJ; decide
  rw [if_neg hJ]
  by_cases hK : c = 'K'
  · subst hK; decide
  rw [if_neg hK]
  by_cases hL : c = 'L'
  · subst hL; decide
  rw [if_neg hL]
  by_cases hM : c = 'M'
  · subst hM; decide
  rw [if_neg hM]
  by_cases hN : c = 'N'
  · subst hN; decide
  rw [if_neg hN]
  by_cases hO : c = 'O'
  · subst hO; decide
  rw [if_neg hO]
  by_cases hP : c = 'P'
  · subst hP; decide
  rw [if_neg hP]
  by_cases hQ : c = 'Q'
  · subst hQ; decide
  rw [if_neg hQ]
  by_cases hR : c = 'R'
  · subst hR; decide
  rw [if_neg hR]
  by_cases hS : c = 'S'
  · subst hS; decide
  rw [if_neg hS]
  by_cases hT : c = 'T'
  · subst hT; decide
  rw [if_neg hT]
  by_cases hU : c = 'U'
  · subst hU; decide
  rw [if_neg hU]
  by_cases hV : c = 'V'
  · subst hV; decide
  rw [if_neg hV]
  by_cases hW : c = 'W'
  · subst hW; decide
  rw [if_neg hW]
  by_cases hX : c = 'X'
  · subst hX; decide
  rw [if_neg hX]
  by_cases hY : c = 'Y'
  · subst hY; decide
  rw [if_neg hY]
  by_cases hZ : c = 'Z'
  · subst hZ; decide
  rw [if_neg hZ]

theorem isCnPunct_pyToLower (c : Char) : isCnPunct (pyToLower c) = isCnPunct c := by
  unfold pyToLower
  by_cases hA : c = 'A'
  · subst hA; decide
  rw [if_neg hA]
  by_cases hB : c = 'B'
  · subst hB; decide
  rw [if_neg hB]
  by_cases hC : c = 'C'
  · subst hC; decide
  rw [if_neg hC]
  by_cases hD : c = 'D'
  · subst hD; decide
  rw [if_neg hD]
  by_cases hE : c = 'E'
  · subst hE; decide
  rw [if_neg hE]
  by_cases hF : c = 'F'
  · subst hF; decide
  rw [if_neg hF]
  by_cases hG : c = 'G'
  · subst hG; decide
  rw [if_neg hG]
  by_cases hH : c = 'H'
  · subst hH; decide
  rw [if_neg hH]
  by_cases hI : c = 'I'
  · subst hI; decide
  rw [if_neg hI]
  by_cases hJ : c = 'J'
  · subst hJ; decide
  rw [if_neg hJ]
  by_cases hK : c = 'K'
  · subst hK; decide
  rw [if_neg hK]
  by_cases hL : c = 'L'
  · subst hL; decide
  rw [if_neg hL]
  by_cases hM : c = 'M'
  · subst hM; decide
  rw [if_neg hM]
  by_cases hN : c = 'N'
  · subst hN; decide
  rw [if_neg hN]
  by_cases hO : c = 'O'
  · subst hO; decide
  rw [if_neg hO]
  by_cases hP : c = 'P'
  · subst hP; decide
  rw [if_neg hP]
  by_cases hQ : c = 'Q'
  · subst hQ; decide
  rw [if_neg hQ]
  by_cases hR : c = 'R'
  · subst hR; decide
  rw [if_neg hR]
  by_cases hS : c = 'S'
  · subst hS; decide
  rw [if_neg hS]
  by_cases hT : c = 'T'
  · subst hT; decide
  rw [if_neg hT]
  by_cases hU : c = 'U'
  · subst hU; decide
  rw [if_neg hU]
  by_cases hV : c = 'V'
  · subst hV; decide
  rw [if_neg hV]
  by_cases hW : c = 'W'
  · subst hW; decide
  rw [if_neg hW]
  by_cases hX : c = 'X'
  · subst hX; decide
  rw [if_neg hX]
  by_cases hY : c = 'Y'
  · subst hY; decide
  rw [if_neg hY]
  by_cases hZ : c = 'Z'
  · subst hZ; decide
  rw [if_neg hZ]


theorem filter_map_pyToLower {p : Char → Bool} (h : ∀ c, p (pyToLower c) = p c)
    (l : List Char) : (l.map pyToLower).filter p = (l.filter p).map pyToLower := by
  rw [List.filter_map]
  congr 1
  apply List.filter_congr
  intro a _
  exact h a

theorem lower_punct_data (x : String) :
    (pyLower (removePunctWs x)).data =
      (pyLower (removeWs x)).data.filter (fun c => !isCnPunct c) := by
  show (x.data.filter (fun c => !(isCnPunct c || pyIsSpace c))).map pyToLower =
    ((x.data.filter (fun c => !pyIsSpace c)).map pyToLower).filter (fun c => !isCnPunct c)
  rw [filter_map_pyToLower (fun c => by rw [isCnPunct_pyToLower]), List.filter_filter]
  congr 1
  apply List.filter_congr
  intro a _
  simp [Bool.not_or, Bool.and_comm]

theorem matchOption_of_spaceCaseEq (rawS opt : String)
    (heq : spaceCaseEq rawS opt = true) (hne : (removeWs rawS).data ≠ []) :
    matchOption rawS opt = true := by
  have he : pyLower (removeWs rawS) = pyLower (removeWs opt) := by
    unfold spaceCaseEq at heq
    exact eq_of_beq heq
  have hnopt : (removeWs opt).data ≠ [] := by
    intro hc
    have hdata : List.map pyToLower (removeWs rawS).data =
        List.map pyToLower (removeWs opt).data := congrArg String.data he
    rw [hc] at hdata
    simp only [List.map_nil] at hdata
    exact hne (List.map_eq_nil_iff.mp hdata)
  have ha : pyStrip rawS ≠ "" := by
    intro hc
    have h2 : removeWs (pyStrip rawS) = removeWs rawS := removeWs_pyStrip rawS
    rw [hc] at h2
    have : (removeWs rawS).data = [] := by
      rw [← h2]
      rfl
    exact hne this
  have ho : pyStrip opt ≠ "" := by
    intro hc
    have h2 : removeWs (pyStrip opt) = removeWs opt := removeWs_pyStrip opt
    rw [hc] at h2
    have : (removeWs opt).data = [] := by
      rw [← h2]
      rfl
    exact hnopt this
  have hthird : pyLower (removePunctWs (pyStrip rawS)) =
      pyLower (removePunctWs (pyStrip opt)) := by
    rw [removePunctWs_pyStrip, removePunctWs_pyStrip]
    apply String.ext
    rw [lower_punct_data, lower_punct_data, he]
  unfold matchOption
  dsimp only
  rw [if_neg (by simp [ha, ho])]
  by_cases h1 : (pyLower (pyStrip rawS) == pyLower (pyStrip opt)) = true
  · rw [if_pos h1]
  · rw [if_neg h1]
    by_cases h2 : (strIn (pyLower (pyStrip rawS)) (pyLower (pyStrip opt)) ||
        strIn (pyLower (pyStrip opt)) (pyLower (pyStrip rawS))) = true
    · rw [if_pos h2]
    · rw [if_neg h2]
      exact beq_iff_eq.mpr hthird

/-- C1 (amended): for a single or judgement question with raw text equal to
some option case- and space-insensitively (and containing at least one
non-whitespace character), `process_answer` matches in the first pass and
returns verbatim the stripped text of the *first* option accepted by the
option matcher — which is the equal option itself unless an earlier option is
captured by the matcher's containment or punctuation-stripped rules. -/
theorem claim1_amended (rawAnswer qType opt : String) (options : List String)
    (hq : qType = "single" ∨ qType = "judgement")
    (hmem : opt ∈ options)
    (heq : spaceCaseEq rawAnswer opt = true)
    (hsub : (removeWs rawAnswer).data ≠ []) :
    ∃ o, options.find? (fun x => matchOption (pyStrip rawAnswer) x) = some o ∧
      processAnswer rawAnswer qType options = some (pyStrip o) := by
  have hraw : rawAnswer ≠ "" := by
    rintro rfl
    exact hsub rfl
  have heq' : spaceCaseEq (pyStrip rawAnswer) opt = true := by
    unfold spaceCaseEq at heq ⊢
    rw [removeWs_pyStrip]
    exact heq
  have hsub' : (removeWs (pyStrip rawAnswer)).data ≠ [] := by
    rw [removeWs_pyStrip]
    exact hsub
  have hm : matchOption (pyStrip rawAnswer) opt = true :=
    matchOption_of_spaceCaseEq (pyStrip rawAnswer) opt heq' hsub'
  have hex : (options.find? (fun x => matchOption (pyStrip rawAnswer) x)).isSome :=
    List.find?_isSome.mpr ⟨opt, hmem, hm⟩
  obtain ⟨o, ho⟩ := Option.isSome_iff_exists.mp hex
  have hopts : options ≠ [] := by
    rintro rfl
    exact (List.not_mem_nil opt) hmem
  refine ⟨o, ho, ?_⟩
  cases hq with
  | inl hqs =>
    subst hqs
    unfold processAnswer
    rw [if_neg hraw]
    dsimp only
    show some (processSingleChoice (pyStrip rawAnswer) options) = _
    unfold processSingleChoice
    rw [if_neg hopts, ho]
  | inr hqj =>
    subst hqj
    unfold processAnswer
    rw [if_neg hraw]
    dsimp only
    show processJudgement (pyStrip rawAnswer) options = _
    unfold processJudgement
    rw [if_neg hopts, ho]

theorem claim1_witness :
    ("正确" : String) ∈ (["正确", "错误"] : List String) ∧
    spaceCaseEq "正确" "正确" = true ∧
    ∃ o, (["正确", "错误"] : List String).find?
        (fun x => matchOption (pyStrip "正确") x) = some o ∧
      processAnswer "正确" "single" ["正确", "错误"] = some (pyStrip o) :=
  ⟨by decide, by decide,
    claim1_amended "正确" "single" "正确" ["正确", "错误"] (Or.inl rfl)
      (by decide) (by decide) (by decide)⟩

theorem claim9_witness :
    (∀ opt ∈ (["勾", "叉"] : List String),
      matchOption (pyStrip "对了吧") opt = false ∧
      matchOption (cleanAnswer (pyStrip "对了吧")) opt = false) ∧
    processAnswer "对了吧" "judgement" ["勾", "叉"] =
      some (judgementFallbackSpec (pyStrip "对了吧") ["勾", "叉"]) ∧
    judgementFallbackSpec (pyStrip "对了吧") ["勾", "叉"] = "勾" :=
  ⟨by decide,
    claim9_amended "对了吧" ["勾", "叉"] (by decide) (by decide) (by decide),
    by decide⟩

end OCS
